import Mathlib

/-!
Verification of the workflow-orchestration core of the outlook-agent
repository (src/agent/state.py, src/agent/graph.py, src/tools/*).

The Python sources are shallowly embedded: the agent state dict becomes a
structure over the fields the orchestrator reads and writes, the free-text
outcome classification becomes substring tests on Lean strings (mirroring
Python's `in` operator on lowercased / uppercased content), and the
LangGraph cycle policy -> tools -> evaluate -> route becomes a fold over a
script of tool-output strings.  Fields of the Python state that the
orchestration logic never branches on (message history, driver handle,
timestamps, retry_counts, auth_completed, inbox_reached, steps_completed,
llm fields) are elided from the structure.
-/

/-! ## String helpers: Python `needle in hay`, `str.lower`, `str.upper` -/

/-- `headMatch n h` is true when list `n` is an initial segment of `h`. -/
def headMatch : List Char → List Char → Bool
  | [], _ => true
  | _ :: _, [] => false
  | a :: n, b :: h => a == b && headMatch n h

/-- `subSearch n h` is true when `n` occurs contiguously inside `h`. -/
def subSearch (needle : List Char) : List Char → Bool
  | [] => needle.isEmpty
  | c :: rest => headMatch needle (c :: rest) || subSearch needle rest

/-- Python's `needle in hay` for strings. -/
def pyIn (needle hay : String) : Bool :=
  subSearch needle.data hay.data

/-- Python's `str.lower()` (ASCII, as used by the agent's keyword tests). -/
def pyLower (s : String) : String :=
  String.mk (s.data.map Char.toLower)

/-- Python's `str.upper()` (ASCII). -/
def pyUpper (s : String) : String :=
  String.mk (s.data.map Char.toUpper)

/-! ## Data model (src/agent/state.py) -/

/-- `WorkflowStep` from src/agent/state.py:17. -/
inductive WorkflowStep where
  | INIT | WELCOME | EMAIL | PASSWORD | DETAILS | NAME | CAPTCHA
  | AUTH_WAIT | POST_AUTH | VERIFY | CLEANUP | ERROR
deriving DecidableEq, Repr

/-- `OutlookAccountData` from src/agent/state.py:33. -/
structure OutlookAccountData where
  username : String
  email : String
  password : String
  first_name : String
  last_name : String
  date_of_birth : String
  birth_day : Nat
  birth_month : String
  birth_year : Nat
  curp_id : Option String := none
deriving DecidableEq, Repr

/-- The slice of `OutlookAgentState` (src/agent/state.py:84) that the
orchestrator branches on.  `tool_call_count` stands for
`len(state["tool_call_history"])`; `account_data` is modelled as already
generated (the claims concern initialized runs). -/
structure AgentState where
  current_step : WorkflowStep
  progress_percentage : Nat
  success : Bool
  email_typed : Bool
  password_typed : Bool
  details_day_selected : Bool
  details_day_value_selected : Bool
  details_month_selected : Bool
  details_month_value_selected : Bool
  details_year_typed : Bool
  name_fields_accessed : Bool
  first_name_typed : Bool
  last_name_typed : Bool
  name_fallback_tried : Bool
  captcha_button_found : Bool
  captcha_pressed : Bool
  consecutive_errors : Nat
  tool_call_count : Nat
  max_tool_calls : Nat
  error_message : Option String
  account_data : OutlookAccountData
deriving DecidableEq, Repr

/-- `set_current_step` from src/agent/state.py:291. -/
def set_current_step (s : AgentState) (step : WorkflowStep) (progress : Nat) :
    AgentState :=
  { s with current_step := step, progress_percentage := progress }

/-- `set_success` from src/agent/state.py:304 (end_time elided). -/
def set_success (s : AgentState) : AgentState :=
  { s with success := true, progress_percentage := 100 }

/-- `add_tool_call_record` from src/agent/state.py:258: appends the record
(modelled as the count) and maintains `consecutive_errors`; the
`retry_counts` map is elided (no claim reads it). -/
def add_tool_call_record (s : AgentState) (success : Bool) : AgentState :=
  let s1 := { s with tool_call_count := s.tool_call_count + 1 }
  if success then { s1 with consecutive_errors := 0 }
  else { s1 with consecutive_errors := s1.consecutive_errors + 1 }

/-! ## Outcome classification (src/agent/graph.py:716,722) -/

def success_keywords : List String :=
  ["SUCCESS", "COMPLETED", "FOUND", "CLICKED", "TYPED", "EXISTS", "PRESSED"]

def failure_keywords : List String :=
  ["FAILED", "ERROR", "TIMEOUT", "NOT FOUND", "EXCEPTION"]

/-- `_analyze_tool_success` from src/agent/graph.py:716. -/
def analyze_tool_success (tool_content : String) : Bool :=
  let up := pyUpper tool_content
  Nat.blt (failure_keywords.countP (fun k => pyIn k up))
    (success_keywords.countP (fun k => pyIn k up))

/-- `_check_automation_success` from src/agent/graph.py:722. -/
def check_automation_success (tool_content : String) : Bool :=
  let low := pyLower tool_content
  (pyIn "search" low && pyIn "inbox" low) || pyIn "search" low

/-! ## Per-step transition branches of `evaluate_node`
(src/agent/graph.py:534-623).  Each function receives the lowercased tool
content and mirrors the corresponding `elif current_step == ...` branch of
the Python if-chain; since the chain discriminates on the step, the chain
is equivalent to a match on `current_step`. -/

def transWELCOME (s : AgentState) (cl : String) : AgentState :=
  if pyIn "clicked" cl || pyIn "create" cl then
    set_current_step s .EMAIL 15
  else s

def transEMAIL (s : AgentState) (cl : String) : AgentState :=
  if pyIn "typed" cl && pyIn "email" cl then { s with email_typed := true }
  else if s.email_typed && pyIn "next" cl then set_current_step s .PASSWORD 25
  else s

def transPASSWORD (s : AgentState) (cl : String) : AgentState :=
  if pyIn "typed" cl && pyIn "password" cl then { s with password_typed := true }
  else if s.password_typed && pyIn "next" cl then set_current_step s .DETAILS 35
  else s

def transDETAILS (s : AgentState) (cl : String) : AgentState :=
  if (pyIn "open day dropdown" cl || pyIn "day dropdown" cl)
      && !s.details_day_selected then
    { s with details_day_selected := true }
  else if (pyIn "select day" cl || pyIn "day" cl) && pyIn "select" cl then
    { s with details_day_value_selected := true }
  else if (pyIn "open month dropdown" cl || pyIn "month dropdown" cl)
      && !s.details_month_selected then
    { s with details_month_selected := true }
  else if (pyIn "select month" cl || pyIn "month" cl) && pyIn "select" cl then
    { s with details_month_value_selected := true }
  else if (pyIn "type year" cl || pyIn "year" cl) && pyIn "typed" cl then
    { s with details_year_typed := true }
  else if pyIn "transition_to_name" cl && pyIn "all details complete" cl then
    set_current_step s .NAME 50
  else s

def transNAME (s : AgentState) (cl : String) : AgentState :=
  if (pyIn "get edittext elements" cl || pyIn "comp.py method" cl)
      && pyIn "elements" cl then
    { s with name_fields_accessed := true }
  else if (pyIn "first name" cl && pyIn "element[0]" cl)
      || (pyIn "first name" cl && pyIn "comp.py" cl) then
    { s with first_name_typed := true }
  else if (pyIn "last name" cl && pyIn "element[1]" cl)
      || (pyIn "last name" cl && pyIn "comp.py" cl) then
    { s with last_name_typed := true }
  else if pyIn "comp.py fallback" cl && pyIn "instance 1" cl then
    { s with name_fallback_tried := true, last_name_typed := true }
  else if pyIn "next after names" cl && pyIn "comp.py success" cl then
    set_current_step s .CAPTCHA 65
  else s

def transCAPTCHA (s : AgentState) (cl : String) : AgentState :=
  if pyIn "wait" cl && pyIn "captcha" cl then
    { s with captcha_button_found := true }
  else if (pyIn "long press" cl || pyIn "15s" cl) && pyIn "captcha" cl then
    set_current_step { s with captcha_pressed := true } .AUTH_WAIT 75
  else s

def transAUTH_WAIT (s : AgentState) (cl : String) : AgentState :=
  if pyIn "auth" cl then set_current_step s .POST_AUTH 80 else s

def transPOST_AUTH (s : AgentState) (cl : String) : AgentState :=
  if pyIn "fast path" cl then set_current_step s .VERIFY 90 else s

def transVERIFY (s : AgentState) (cl : String) : AgentState :=
  if pyIn "inbox" cl then set_current_step s .CLEANUP 100 else s

def apply_transitions (s : AgentState) (cl : String) : AgentState :=
  match s.current_step with
  | .WELCOME => transWELCOME s cl
  | .EMAIL => transEMAIL s cl
  | .PASSWORD => transPASSWORD s cl
  | .DETAILS => transDETAILS s cl
  | .NAME => transNAME s cl
  | .CAPTCHA => transCAPTCHA s cl
  | .AUTH_WAIT => transAUTH_WAIT s cl
  | .POST_AUTH => transPOST_AUTH s cl
  | .VERIFY => transVERIFY s cl
  | _ => s

/-- `evaluate_node` from src/agent/graph.py:500: record the outcome, try
the global success predicate, then run the step transition chain on success
or bump `consecutive_errors` on failure.  The tool output string of the
last ToolMessage is the `tool_content` argument. -/
def evaluate_node (s : AgentState) (tool_content : String) : AgentState :=
  if s.current_step = .ERROR then s
  else
    let success := analyze_tool_success tool_content
    let s1 := add_tool_call_record s success
    if check_automation_success tool_content then set_success s1
    else if success then
      apply_transitions { s1 with consecutive_errors := 0 } (pyLower tool_content)
    else { s1 with consecutive_errors := s1.consecutive_errors + 1 }

/-! ## Routing and the surrounding loop (src/agent/graph.py) -/

inductive Route where
  | cont | success | error | max_calls
deriving DecidableEq, Repr

/-- `route_after_evaluation` from src/agent/graph.py:685. -/
def route_after_evaluation (s : AgentState) : Route :=
  if s.success then .success
  else if s.current_step = .ERROR then .error
  else if s.max_tool_calls ≤ s.tool_call_count then .max_calls
  else if 5 ≤ s.consecutive_errors then .error
  else .cont

/-- `policy_node` from src/agent/graph.py:121: only the state effects are
modelled (the emitted tool call is `create_working_tool_call` below). -/
def policy_node (s : AgentState) : AgentState :=
  if s.current_step = .ERROR then s
  else if s.max_tool_calls ≤ s.tool_call_count then
    { s with error_message := some "Max tool calls reached",
             current_step := .ERROR }
  else s

/-- `cleanup_node` from src/agent/graph.py:635: quits the driver and
appends a summary message; no modelled field changes. -/
def cleanup_node (s : AgentState) : AgentState := s

/-- `error_node` from src/agent/graph.py:662. -/
def error_node (s : AgentState) : AgentState :=
  { s with success := false }

inductive Terminal where
  | success | error | max_calls | exhausted
deriving DecidableEq, Repr

/-- One pass of the compiled graph cycle policy -> tools -> evaluate ->
route (src/agent/graph.py:51-81), folded over a script of tool-output
strings; `.exhausted` marks running out of scripted outcomes.  The
`max_calls` route reaches the same error node as `error`
(src/agent/graph.py:67-76). -/
def runAgent : AgentState → List String → Terminal × AgentState
  | s, [] => (.exhausted, s)
  | s, c :: rest =>
    let s2 := evaluate_node (policy_node s) c
    match route_after_evaluation s2 with
    | .cont => runAgent s2 rest
    | .success => (.success, cleanup_node s2)
    | .error => (.error, error_node s2)
    | .max_calls => (.max_calls, error_node s2)

/-- The list of states visited by `runAgent`, starting with the input
state, for trace properties such as progress monotonicity. -/
def runTrace : AgentState → List String → List AgentState
  | s, [] => [s]
  | s, c :: rest =>
    let s2 := evaluate_node (policy_node s) c
    match route_after_evaluation s2 with
    | .cont => s :: runTrace s2 rest
    | .success => [s, s2, cleanup_node s2]
    | .error => [s, s2, error_node s2]
    | .max_calls => [s, s2, error_node s2]

/-- Progress milestone assigned when a step becomes current:
`initialize_node` uses 5 (INIT) and 10 (WELCOME), and every
`set_current_step` call in `evaluate_node` pairs the target step with the
value tabulated here (src/agent/graph.py:90,108,539,548,557,578,597,607,
612,617,622).  ERROR never receives a progress assignment; 100 is its
vacuous bound. -/
def enter_progress : WorkflowStep → Nat
  | .INIT => 5
  | .WELCOME => 10
  | .EMAIL => 15
  | .PASSWORD => 25
  | .DETAILS => 35
  | .NAME => 50
  | .CAPTCHA => 65
  | .AUTH_WAIT => 75
  | .POST_AUTH => 80
  | .VERIFY => 90
  | .CLEANUP => 100
  | .ERROR => 100

/-- Fixed sample account for concrete runs. -/
def exampleAccount : OutlookAccountData :=
  { username := "fix123456"
    email := "fix123456@outlook.com"
    password := "Fixed123Pass!"
    first_name := "Jane"
    last_name := "Doe"
    date_of_birth := "1995-01-15"
    birth_day := 15
    birth_month := "January"
    birth_year := 1995 }

/-- A freshly initialized run positioned at WELCOME, as produced by
`create_initial_state` plus `initialize_node`
(src/agent/state.py:150, src/agent/graph.py:84-119). -/
def exampleState : AgentState :=
  { current_step := .WELCOME
    progress_percentage := 10
    success := false
    email_typed := false
    password_typed := false
    details_day_selected := false
    details_day_value_selected := false
    details_month_selected := false
    details_month_value_selected := false
    details_year_typed := false
    name_fields_accessed := false
    first_name_typed := false
    last_name_typed := false
    name_fallback_tried := false
    captcha_button_found := false
    captcha_pressed := false
    consecutive_errors := 0
    tool_call_count := 0
    max_tool_calls := 100
    error_message := none
    account_data := exampleAccount }

/-! ## The deterministic planner (src/agent/graph.py:163-498) -/

/-- The tool-call dict emitted by `_create_working_tool_call` /
`_create_fallback_tool_call`: name, action and the arguments the claims
inspect.  Durations and time budgets are seconds/milliseconds as integers
(`budget_seconds` 7.0 is modelled as 7); the generated message id is
elided. -/
structure ToolCall where
  name : String
  action : String
  locator : Option String := none
  strategy : Option String := none
  text : Option String := none
  element_index : Option Nat := none
  timeout : Option Nat := none
  duration_ms : Option Nat := none
  timeout_seconds : Option Nat := none
  budget_seconds : Option Nat := none
  description : String
deriving DecidableEq, Repr

/-- `_create_fallback_tool_call` from src/agent/graph.py:491. -/
def create_fallback_tool_call : ToolCall :=
  { name := "ocr", action := "capture_and_read", description := "" }

/-- `_create_working_tool_call` from src/agent/graph.py:163: deterministic
rule table mapping (step, flags, account) to the single next tool call. -/
def create_working_tool_call (s : AgentState) : ToolCall :=
  let acc := s.account_data
  match s.current_step with
  | .WELCOME =>
    { name := "mobile_ui", action := "click",
      locator := some "//*[contains(@text, \x27CREATE NEW ACCOUNT\x27)]",
      strategy := some "xpath",
      description := "Click CREATE NEW ACCOUNT" }
  | .EMAIL =>
    if !s.email_typed then
      { name := "mobile_ui", action := "type",
        locator := some "android.widget.EditText", strategy := some "class",
        text := some acc.username, description := "Type email" }
    else
      { name := "mobile_ui", action := "next_button",
        description := "Next after email" }
  | .PASSWORD =>
    if !s.password_typed then
      { name := "mobile_ui", action := "type",
        locator := some "android.widget.EditText", strategy := some "class",
        text := some acc.password, description := "Type password" }
    else
      { name := "mobile_ui", action := "next_button",
        description := "Next after password" }
  | .DETAILS =>
    let all_details_complete := s.details_day_value_selected
      && s.details_month_value_selected && s.details_year_typed
    if all_details_complete then
      { name := "mobile_ui", action := "next_button",
        description := "TRANSITION_TO_NAME: Next after all details complete" }
    else if !s.details_day_selected then
      { name := "mobile_ui", action := "click",
        locator := some "//*[contains(@text, \x27Day\x27)]",
        strategy := some "xpath", description := "Open Day dropdown" }
    else if s.details_day_selected && !s.details_day_value_selected then
      { name := "mobile_ui", action := "click",
        locator := some ("//*[@text=\x27" ++ toString acc.birth_day ++ "\x27]"),
        strategy := some "xpath",
        description := "Select day " ++ toString acc.birth_day }
    else if !s.details_month_selected then
      { name := "mobile_ui", action := "click",
        locator := some "//*[contains(@text, \x27Month\x27)]",
        strategy := some "xpath", description := "Open Month dropdown" }
    else if s.details_month_selected && !s.details_month_value_selected then
      { name := "mobile_ui", action := "click",
        locator := some ("//*[@text=\x27" ++ acc.birth_month ++ "\x27]"),
        strategy := some "xpath",
        description := "Select month " ++ acc.birth_month }
    else if !s.details_year_typed then
      { name := "mobile_ui", action := "type",
        locator := some "android.widget.EditText", strategy := some "class",
        text := some (toString acc.birth_year),
        description := "Type year " ++ toString acc.birth_year }
    else
      { name := "mobile_ui", action := "next_button",
        description := "Next fallback" }
  | .NAME =>
    if !s.name_fields_accessed then
      { name := "mobile_ui", action := "get_elements",
        locator := some "android.widget.EditText", strategy := some "class",
        description := "Get all EditText elements for names (COMP.PY METHOD)" }
    else if !s.first_name_typed then
      { name := "mobile_ui", action := "type_element_index",
        locator := some "android.widget.EditText", strategy := some "class",
        element_index := some 0, text := some acc.first_name,
        description := "Type first name in element[0] - COMP.PY METHOD" }
    else if !s.last_name_typed then
      { name := "mobile_ui", action := "type_element_index",
        locator := some "android.widget.EditText", strategy := some "class",
        element_index := some 1, text := some acc.last_name,
        description := "Type last name in element[1] - COMP.PY METHOD" }
    else if !s.name_fallback_tried then
      { name := "mobile_ui", action := "type",
        locator := some
          "new UiSelector().className(\"android.widget.EditText\").instance(1)",
        strategy := some "uiautomator", text := some acc.last_name,
        description := "COMP.PY FALLBACK: Type last name (instance 1)" }
    else
      { name := "mobile_ui", action := "next_button",
        description := "Next after names (COMP.PY METHOD SUCCESS)" }
  | .CAPTCHA =>
    if !s.captcha_button_found then
      { name := "mobile_ui", action := "wait_for",
        locator := some "//android.widget.Button[contains(@text,\x27Press\x27)]",
        strategy := some "xpath", timeout := some 10,
        description := "Wait for CAPTCHA button" }
    else
      { name := "gestures", action := "long_press",
        locator := some "//android.widget.Button[contains(@text,\x27Press\x27)]",
        strategy := some "xpath", duration_ms := some 15000,
        description := "Long press CAPTCHA 15s" }
  | .AUTH_WAIT =>
    { name := "navigator", action := "wait_auth", timeout_seconds := some 90,
      description := "Wait authentication" }
  | .POST_AUTH =>
    { name := "navigator", action := "fast_path", budget_seconds := some 7,
      description := "Fast path post-auth" }
  | .VERIFY =>
    { name := "mobile_ui", action := "wait_for",
      locator := some "//*[@text=\x27Search\x27]", strategy := some "xpath",
      timeout := some 10, description := "Wait for inbox" }
  | _ => create_fallback_tool_call

/-! ## Element caching in the executor
(src/tools/mobile_ui_tool.py:119-204).  A `UIElement` is an abstract
driver element handle; `fresh` stands for the list that
`self._ui.ui_find_elements(locator, strategy)` would return at the moment
of the call. -/

structure UIElement where
  handle : Nat
deriving DecidableEq, Repr

abbrev ElementCache := List (String × List UIElement)

/-- The cache key `f"{locator}_{strategy}"` (src/tools/mobile_ui_tool.py:129). -/
def element_cache_key (locator strategy : String) : String :=
  locator ++ "_" ++ strategy

/-- `self._cached_elements.get(cache_key)` with Python falsy handling: a
missing key behaves like an empty list under `if not elements`. -/
def cache_lookup (cache : ElementCache) (key : String) : List UIElement :=
  match cache.find? (fun kv => kv.1 == key) with
  | some kv => kv.2
  | none => []

/-- The `get_elements` branch of `MobileUITool._run`
(src/tools/mobile_ui_tool.py:119-138): caches the freshly resolved list
under the locator/strategy key when at least 2 elements were found;
returns the updated cache and the reported success flag. -/
def get_elements_action (cache : ElementCache) (locator strategy : String)
    (fresh : List UIElement) : ElementCache × Bool :=
  if 2 ≤ fresh.length then
    ((element_cache_key locator strategy, fresh) :: cache, true)
  else (cache, false)

/-- Element resolution of the `type_element_index` branch of
`MobileUITool._run` (src/tools/mobile_ui_tool.py:149-159): try the cached
list first; only if there is no cached (nonempty) list, resolve fresh and
cache the result.  Returns the list actually used and the updated cache. -/
def type_element_index_resolve (cache : ElementCache)
    (locator strategy : String) (fresh : List UIElement) :
    List UIElement × ElementCache :=
  let key := element_cache_key locator strategy
  let cached := cache_lookup cache key
  if cached.isEmpty then
    if fresh.isEmpty then (fresh, cache)
    else (fresh, (key, fresh) :: cache)
  else (cached, cache)

/-! ## Account generation (src/agent/state.py:225-255) -/

/-- `datetime.strftime("%B")`: full English month name. -/
def monthName : Nat → String
  | 1 => "January"
  | 2 => "February"
  | 3 => "March"
  | 4 => "April"
  | 5 => "May"
  | 6 => "June"
  | 7 => "July"
  | 8 => "August"
  | 9 => "September"
  | 10 => "October"
  | 11 => "November"
  | 12 => "December"
  | _ => ""

def isLeapYear (y : Nat) : Bool :=
  (y % 4 == 0 && y % 100 != 0) || y % 400 == 0

def daysInMonth (y m : Nat) : Nat :=
  if m = 2 then (if isLeapYear y then 29 else 28)
  else if m = 4 || m = 6 || m = 9 || m = 11 then 30
  else 31

def allDigits (l : List Char) : Bool :=
  !l.isEmpty && l.all Char.isDigit

def digitsToNat (l : List Char) : Nat :=
  l.foldl (fun n c => 10 * n + (c.toNat - 48)) 0

/-- Split a character list on the dash separator (`str.split("-")`
semantics for a single-character separator). -/
def splitOnDash : List Char → List Char → List (List Char)
  | [], acc => [acc.reverse]
  | c :: rest, acc =>
    if c = Char.ofNat 45 then acc.reverse :: splitOnDash rest []
    else splitOnDash rest (c :: acc)

/-- CPython `_strptime` group for `%Y`: `\d\d\d\d` — exactly four
digits. -/
def yearGroup (l : List Char) : Option Nat :=
  if allDigits l && l.length = 4 then some (digitsToNat l) else none

/-- CPython `_strptime` group for `%m`: `1[0-2]|0[1-9]|[1-9]` — one or
two digits with value 1-12. -/
def monthGroup (l : List Char) : Option Nat :=
  if allDigits l && l.length ≤ 2 then
    let m := digitsToNat l
    if 1 ≤ m && m ≤ 12 then some m else none
  else none

/-- CPython `_strptime` group for `%d`:
`3[01]|[12]\d|0[1-9]|[1-9]| [1-9]` — one or two digits with value 1-31,
or a space followed by a nonzero digit. -/
def dayGroup (l : List Char) : Option Nat :=
  if allDigits l && l.length ≤ 2 then
    let d := digitsToNat l
    if 1 ≤ d && d ≤ 31 then some d else none
  else
    match l with
    | [c1, c2] =>
      if c1 = Char.ofNat 32 && c2.isDigit && !(c2 = Char.ofNat 48) then
        some (c2.toNat - 48)
      else none
    | _ => none

/-- Model of `datetime.strptime(date_of_birth, "%Y-%m-%d")` (ASCII
inputs): since none of the three group patterns can contain a dash, the
full-string regex match is equivalent to splitting on the dashes and
matching each group — a four-digit `%Y`, a 1-2 digit month 1-12, and a
day that is 1-2 digits 1-31 or a space plus a nonzero digit; the
subsequent `datetime_date(year, month, day)` construction then requires
year at least 1 (MINYEAR) and the day to exist in the month.  Any other
string raises ValueError, modelled as `none`. -/
def strptime_ymd (s : String) : Option (Nat × Nat × Nat) :=
  match splitOnDash s.data [] with
  | [ys, ms, ds] =>
    match yearGroup ys, monthGroup ms, dayGroup ds with
    | some y, some m, some d =>
      if 1 ≤ y && d ≤ daysInMonth y m then some (y, m, d) else none
    | _, _, _ => none
  | _ => none

/-- `generate_outlook_account_data` from src/agent/state.py:225.  The two
`random.randint` draws are passed in as `u` (username digits) and `p`
(password digits). -/
def generate_outlook_account_data (first_name last_name date_of_birth : String)
    (u p : Nat) : OutlookAccountData :=
  let parsed := strptime_ymd date_of_birth
  let birth_day := match parsed with
    | some (_, _, d) => d
    | none => 15
  let birth_month := match parsed with
    | some (_, m, _) => monthName m
    | none => "January"
  let birth_year := match parsed with
    | some (y, _, _) => y
    | none => 1995
  let username := "fix" ++ toString u
  { username := username
    email := username ++ "@outlook.com"
    password := "Fixed" ++ toString p ++ "Pass!"
    first_name := first_name
    last_name := last_name
    date_of_birth := date_of_birth
    birth_day := birth_day
    birth_month := birth_month
    birth_year := birth_year }

/-! ## Bounded authentication wait (src/tools/auth_wait.py:18-73) -/

/-- The polling loop of `AuthenticationWaiter.ui_wait_progress_gone`:
`visible i` says whether some progress bar is still displayed at the i-th
check.  Inside the bounded loop the function returns True as soon as no
visible bar remains; after the loop exhausts (timeout) it returns True as
well ("continue even on timeout", src/tools/auth_wait.py:73). -/
def waitLoop (visible : Nat → Bool) : Nat → Nat → Bool
  | _, 0 => true
  | i, fuel + 1 => if !(visible i) then true else waitLoop visible (i + 1) fuel

/-- `ui_wait_progress_gone` with its defaults max_seconds=90,
check_interval=2: `iterations = int(max_seconds / check_interval)`. -/
def ui_wait_progress_gone (visible : Nat → Bool) (max_seconds : Nat := 90)
    (check_interval : Nat := 2) : Bool :=
  waitLoop visible 0 (max_seconds / check_interval)

/-- Structured outcome at the Executor/Evaluator boundary as described by
the spec data model (success flag, free-text description, classified
signal tags). -/
structure ActionOutcome where
  success : Bool
  raw_description : String
  signals : List String
deriving DecidableEq, Repr

/-- Modelled from the spec: the body of `NavigatorTool._run` for the
`wait_auth` action is omitted in the source
(src/tools/navigator_tool.py:34-37 is a placeholder), so its outcome is
modelled from spec section 4.3: the bounded wait delegates to
`ui_wait_progress_gone`, and on timeout it "still reports success" while
recording "that the wait was exhausted via a signal tag"
("timeout_exhausted"). -/
def navigator_wait_auth_outcome (timed_out : Bool) : ActionOutcome :=
  if timed_out then
    { success := true
      raw_description :=
        "navigator wait_auth COMPLETED: authentication wait exhausted, continuing"
      signals := ["timeout_exhausted"] }
  else
    { success := true
      raw_description := "navigator wait_auth COMPLETED: authentication done"
      signals := [] }

/-! ## Flag groups, for stating the step-scoping invariant -/

/-- The Details-step gate flags, in declared checklist order. -/
def details_flags (s : AgentState) : Bool × Bool × Bool × Bool × Bool :=
  (s.details_day_selected, s.details_day_value_selected,
    s.details_month_selected, s.details_month_value_selected,
    s.details_year_typed)

/-- The Name-step gate flags. -/
def name_flags (s : AgentState) : Bool × Bool × Bool × Bool :=
  (s.name_fields_accessed, s.first_name_typed, s.last_name_typed,
    s.name_fallback_tried)

/-- The Captcha-step gate flags. -/
def captcha_flags (s : AgentState) : Bool × Bool :=
  (s.captcha_button_found, s.captcha_pressed)

/-! ## Helper lemmas about the embedded operations -/

theorem add_record_fields (s : AgentState) (b : Bool) :
    (add_tool_call_record s b).current_step = s.current_step
    ∧ (add_tool_call_record s b).progress_percentage = s.progress_percentage
    ∧ (add_tool_call_record s b).success = s.success
    ∧ (add_tool_call_record s b).tool_call_count = s.tool_call_count + 1
    ∧ (add_tool_call_record s b).max_tool_calls = s.max_tool_calls := by
  unfold add_tool_call_record
  split <;> exact ⟨rfl, rfl, rfl, rfl, rfl⟩

theorem evaluate_error_id (s : AgentState) (c : String)
    (h : s.current_step = .ERROR) : evaluate_node s c = s := by
  simp [evaluate_node, h]

theorem evaluate_check_shape (s : AgentState) (c : String)
    (hE : s.current_step ≠ .ERROR)
    (hchk : check_automation_success c = true) :
    evaluate_node s c
      = set_success (add_tool_call_record s (analyze_tool_success c)) := by
  simp [evaluate_node, hE, hchk]

theorem evaluate_fail_shape (s : AgentState) (c : String)
    (hE : s.current_step ≠ .ERROR)
    (hana : analyze_tool_success c = false)
    (hchk : check_automation_success c = false) :
    evaluate_node s c
      = { s with tool_call_count := s.tool_call_count + 1,
                 consecutive_errors := s.consecutive_errors + 2 } := by
  simp [evaluate_node, add_tool_call_record, hE, hana, hchk]

theorem evaluate_ok_shape (s : AgentState) (c : String)
    (hE : s.current_step ≠ .ERROR)
    (hana : analyze_tool_success c = true)
    (hchk : check_automation_success c = false) :
    evaluate_node s c
      = apply_transitions
          { s with tool_call_count := s.tool_call_count + 1,
                   consecutive_errors := 0 } (pyLower c) := by
  simp [evaluate_node, add_tool_call_record, hE, hana, hchk]

theorem transWELCOME_spec (s : AgentState) (cl : String) :
    transWELCOME s cl = set_current_step s .EMAIL 15 ∨ transWELCOME s cl = s := by
  unfold transWELCOME
  split
  · exact Or.inl rfl
  · exact Or.inr rfl

theorem transEMAIL_spec (s : AgentState) (cl : String) :
    transEMAIL s cl = { s with email_typed := true }
    ∨ (transEMAIL s cl = set_current_step s .PASSWORD 25
        ∧ s.email_typed = true ∧ pyIn "next" cl = true)
    ∨ transEMAIL s cl = s := by
  unfold transEMAIL
  split
  · exact Or.inl rfl
  · split
    · next h =>
      exact Or.inr (Or.inl ⟨rfl, (Bool.and_eq_true _ _).mp h |>.1,
        (Bool.and_eq_true _ _).mp h |>.2⟩)
    · exact Or.inr (Or.inr rfl)

theorem transPASSWORD_spec (s : AgentState) (cl : String) :
    transPASSWORD s cl = { s with password_typed := true }
    ∨ (transPASSWORD s cl = set_current_step s .DETAILS 35
        ∧ s.password_typed = true ∧ pyIn "next" cl = true)
    ∨ transPASSWORD s cl = s := by
  unfold transPASSWORD
  split
  · exact Or.inl rfl
  · split
    · next h =>
      exact Or.inr (Or.inl ⟨rfl, (Bool.and_eq_true _ _).mp h |>.1,
        (Bool.and_eq_true _ _).mp h |>.2⟩)
    · exact Or.inr (Or.inr rfl)

theorem transDETAILS_spec (s : AgentState) (cl : String) :
    transDETAILS s cl = { s with details_day_selected := true }
    ∨ transDETAILS s cl = { s with details_day_value_selected := true }
    ∨ transDETAILS s cl = { s with details_month_selected := true }
    ∨ transDETAILS s cl = { s with details_month_value_selected := true }
    ∨ transDETAILS s cl = { s with details_year_typed := true }
    ∨ transDETAILS s cl = set_current_step s .NAME 50
    ∨ transDETAILS s cl = s := by
  unfold transDETAILS
  split
  · exact Or.inl rfl
  · split
    · exact Or.inr (Or.inl rfl)
    · split
      · exact Or.inr (Or.inr (Or.inl rfl))
      · split
        · exact Or.inr (Or.inr (Or.inr (Or.inl rfl)))
        · split
          · exact Or.inr (Or.inr (Or.inr (Or.inr (Or.inl rfl))))
          · split
            · exact Or.inr (Or.inr (Or.inr (Or.inr (Or.inr (Or.inl rfl)))))
            · exact Or.inr (Or.inr (Or.inr (Or.inr (Or.inr (Or.inr rfl)))))

theorem transNAME_spec (s : AgentState) (cl : String) :
    transNAME s cl = { s with name_fields_accessed := true }
    ∨ transNAME s cl = { s with first_name_typed := true }
    ∨ transNAME s cl = { s with last_name_typed := true }
    ∨ transNAME s cl
        = { s with name_fallback_tried := true, last_name_typed := true }
    ∨ transNAME s cl = set_current_step s .CAPTCHA 65
    ∨ transNAME s cl = s := by
  unfold transNAME
  split
  · exact Or.inl rfl
  · split
    · exact Or.inr (Or.inl rfl)
    · split
      · exact Or.inr (Or.inr (Or.inl rfl))
      · split
        · exact Or.inr (Or.inr (Or.inr (Or.inl rfl)))
        · split
          · exact Or.inr (Or.inr (Or.inr (Or.inr (Or.inl rfl))))
          · exact Or.inr (Or.inr (Or.inr (Or.inr (Or.inr rfl))))

theorem transCAPTCHA_spec (s : AgentState) (cl : String) :
    transCAPTCHA s cl = { s with captcha_button_found := true }
    ∨ transCAPTCHA s cl
        = set_current_step { s with captcha_pressed := true } .AUTH_WAIT 75
    ∨ transCAPTCHA s cl = s := by
  unfold transCAPTCHA
  split
  · exact Or.inl rfl
  · split
    · exact Or.inr (Or.inl rfl)
    · exact Or.inr (Or.inr rfl)

theorem transAUTH_WAIT_spec (s : AgentState) (cl : String) :
    transAUTH_WAIT s cl = set_current_step s .POST_AUTH 80
    ∨ transAUTH_WAIT s cl = s := by
  unfold transAUTH_WAIT
  split
  · exact Or.inl rfl
  · exact Or.inr rfl

theorem transPOST_AUTH_spec (s : AgentState) (cl : String) :
    transPOST_AUTH s cl = set_current_step s .VERIFY 90
    ∨ transPOST_AUTH s cl = s := by
  unfold transPOST_AUTH
  split
  · exact Or.inl rfl
  · exact Or.inr rfl

theorem transVERIFY_spec (s : AgentState) (cl : String) :
    transVERIFY s cl = set_current_step s .CLEANUP 100
    ∨ transVERIFY s cl = s := by
  unfold transVERIFY
  split
  · exact Or.inl rfl
  · exact Or.inr rfl

/-- C10: account generation is total in its date-of-birth argument: when
the string does not parse as %Y-%m-%d, `generate_outlook_account_data`
returns the default birth values 15 / January / 1995 and generates the
remaining fields normally. -/
theorem generate_account_defaults_on_bad_dob
    (first_name last_name dob : String) (u p : Nat)
    (h : strptime_ymd dob = none) :
    generate_outlook_account_data first_name last_name dob u p =
      { username := "fix" ++ toString u
        email := "fix" ++ toString u ++ "@outlook.com"
        password := "Fixed" ++ toString p ++ "Pass!"
        first_name := first_name
        last_name := last_name
        date_of_birth := dob
        birth_day := 15
        birth_month := "January"
        birth_year := 1995 } := by
  simp [generate_outlook_account_data, h]

/-- C10 witness: "not-a-date" does not parse, and generation returns the
default birth values with all other fields generated normally. -/
theorem generate_account_defaults_on_bad_dob_witness :
    strptime_ymd "not-a-date" = none ∧
    generate_outlook_account_data "Jane" "Doe" "not-a-date" 123456 789 =
      { username := "fix123456"
        email := "fix123456@outlook.com"
        password := "Fixed789Pass!"
        first_name := "Jane"
        last_name := "Doe"
        date_of_birth := "not-a-date"
        birth_day := 15
        birth_month := "January"
        birth_year := 1995 } :=
  ⟨by decide,
    generate_account_defaults_on_bad_dob "Jane" "Doe" "not-a-date" 123456 789
      (by decide)⟩

/-- C9 counterexample: after a `get_elements` call cached two elements
under the locator/strategy key, a later `type_element_index` invocation
does not re-resolve the element list: even though a fresh lookup would now
return different elements, the previously cached ones are used. -/
theorem type_element_index_stale_cache_counterexample :
    (type_element_index_resolve
        (get_elements_action [] "android.widget.EditText" "class"
          [⟨0⟩, ⟨1⟩]).1
        "android.widget.EditText" "class" [⟨2⟩, ⟨3⟩]).1 = [⟨0⟩, ⟨1⟩]
    ∧ ([⟨0⟩, ⟨1⟩] : List UIElement) ≠ [⟨2⟩, ⟨3⟩] := by
  constructor
  · rfl
  · decide

/-- C9 amended: `get_elements` caches the resolved list under the
locator/strategy key when it has at least two elements, and
`type_element_index` prefers that cached list — it only resolves a fresh
element list when no (nonempty) cached list exists for its key, caching
what it found. -/
theorem type_element_index_cache_first (cache : ElementCache)
    (locator strategy : String) (fresh : List UIElement) :
    ((cache_lookup cache (element_cache_key locator strategy)).isEmpty = true →
      (type_element_index_resolve cache locator strategy fresh).1 = fresh)
    ∧ ((cache_lookup cache (element_cache_key locator strategy)).isEmpty = false →
      (type_element_index_resolve cache locator strategy fresh).1
        = cache_lookup cache (element_cache_key locator strategy))
    ∧ (2 ≤ fresh.length →
      cache_lookup (get_elements_action cache locator strategy fresh).1
        (element_cache_key locator strategy) = fresh) := by
  refine ⟨fun h => ?_, fun h => ?_, fun h => ?_⟩
  · unfold type_element_index_resolve
    simp only [h]
    rw [if_pos trivial]
    split <;> rfl
  · unfold type_element_index_resolve
    simp only [h]
    rw [if_neg (by simp)]
  · unfold get_elements_action
    rw [if_pos h]
    unfold cache_lookup
    simp [List.find?]

/-- C9 amended witness: with an empty cache, `type_element_index` resolves
fresh. -/
theorem type_element_index_cache_first_witness :
    (type_element_index_resolve [] "android.widget.EditText" "class"
      [⟨5⟩]).1 = [⟨5⟩] :=
  (type_element_index_cache_first [] "android.widget.EditText" "class"
    [⟨5⟩]).1 (by rfl)

/-- C7: the bounded AuthWait wait reports success even when the maximum
duration is exhausted with progress bars still visible (`waitLoop` and
hence `ui_wait_progress_gone` return true on every input); the modelled
navigator outcome on timeout has `success = true` and carries the
"timeout_exhausted" signal tag; and evaluating that outcome while
`current_step = AUTH_WAIT` still advances the state machine to POST_AUTH
(with its milestone progress 80). -/
theorem auth_wait_timeout_graceful :
    (∀ (visible : Nat → Bool) (i fuel : Nat), waitLoop visible i fuel = true)
    ∧ (∀ visible : Nat → Bool, ui_wait_progress_gone visible = true)
    ∧ (navigator_wait_auth_outcome true).success = true
    ∧ "timeout_exhausted" ∈ (navigator_wait_auth_outcome true).signals
    ∧ (∀ s : AgentState, s.current_step = .AUTH_WAIT →
        (evaluate_node s (navigator_wait_auth_outcome true).raw_description
          ).current_step = .POST_AUTH
        ∧ (evaluate_node s (navigator_wait_auth_outcome true).raw_description
          ).progress_percentage = 80) := by
  have hwait : ∀ (visible : Nat → Bool) (i fuel : Nat),
      waitLoop visible i fuel = true := by
    intro visible i fuel
    induction fuel generalizing i with
    | zero => rfl
    | succ n ih =>
      unfold waitLoop
      split
      · rfl
      · exact ih (i + 1)
  refine ⟨hwait, fun visible => hwait visible 0 _, rfl, by decide, ?_⟩
  intro s hs
  have hE : s.current_step ≠ .ERROR := by
    rw [hs]
    decide
  have hana : analyze_tool_success
      (navigator_wait_auth_outcome true).raw_description = true := by decide
  have hchk : check_automation_success
      (navigator_wait_auth_outcome true).raw_description = false := by decide
  rw [evaluate_ok_shape s _ hE hana hchk]
  have h3 : pyIn "auth"
      (pyLower (navigator_wait_auth_outcome true).raw_description) = true := by
    decide
  simp [apply_transitions, hs, transAUTH_WAIT, h3, set_current_step]

/-- C7 witness: the advance conjunct applied at a concrete AUTH_WAIT
state. -/
theorem auth_wait_timeout_graceful_witness :
    (evaluate_node { exampleState with current_step := .AUTH_WAIT }
      (navigator_wait_auth_outcome true).raw_description).current_step
        = .POST_AUTH :=
  (auth_wait_timeout_graceful.2.2.2.2
    { exampleState with current_step := .AUTH_WAIT } rfl).1

/-- C2: when an outcome's content carries the "inbox reached" evidence the
code tests for (`_check_automation_success`), the machine short-circuits
at whatever non-terminal current step — the success flag is set, progress
becomes 100, the current step is left as it was (no intermediate steps are
visited), routing returns "success" and the run ends at the cleanup node
immediately, skipping Name/Captcha/AuthWait/PostAuth/Verify. -/
theorem inbox_short_circuit (s : AgentState) (c : String)
    (hstep : s.current_step ≠ .ERROR)
    (hcheck : check_automation_success c = true)
    (hbudget : s.tool_call_count < s.max_tool_calls) :
    (evaluate_node s c).success = true
    ∧ (evaluate_node s c).progress_percentage = 100
    ∧ (evaluate_node s c).current_step = s.current_step
    ∧ route_after_evaluation (evaluate_node s c) = .success
    ∧ ∀ rest : List String,
        runAgent s (c :: rest) = (.success, cleanup_node (evaluate_node s c)) := by
  have he := evaluate_check_shape s c hstep hcheck
  have hsucc : (evaluate_node s c).success = true := by
    rw [he]
    rfl
  have hprog : (evaluate_node s c).progress_percentage = 100 := by
    rw [he]
    rfl
  have hstep2 : (evaluate_node s c).current_step = s.current_step := by
    rw [he]
    exact (add_record_fields s (analyze_tool_success c)).1
  have hroute : route_after_evaluation (evaluate_node s c) = .success := by
    simp [route_after_evaluation, hsucc]
  refine ⟨hsucc, hprog, hstep2, hroute, ?_⟩
  intro rest
  have hpol : policy_node s = s := by
    simp [policy_node, hstep, Nat.not_le.mpr hbudget]
  unfold runAgent
  rw [hpol]
  simp only [hroute]

/-- C2 witness: an outcome containing "Search" while the current step is
Details short-circuits directly to the success terminal. -/
theorem inbox_short_circuit_witness :
    (evaluate_node { exampleState with current_step := .DETAILS }
      "Element appeared: Wait for inbox | Status: SUCCESS | Search visible"
      ).success = true
    ∧ (evaluate_node { exampleState with current_step := .DETAILS }
      "Element appeared: Wait for inbox | Status: SUCCESS | Search visible"
      ).current_step = .DETAILS
    ∧ route_after_evaluation
        (evaluate_node { exampleState with current_step := .DETAILS }
          "Element appeared: Wait for inbox | Status: SUCCESS | Search visible")
        = .success := by
  have h := inbox_short_circuit { exampleState with current_step := .DETAILS }
    "Element appeared: Wait for inbox | Status: SUCCESS | Search visible"
    (by decide) (by decide) (by decide)
  exact ⟨h.1, h.2.2.1, h.2.2.2.1⟩


theorem runAgent_fail_cont (t : AgentState) (c : String) (rest : List String)
    (h1 : t.success = false) (h2 : t.current_step ≠ .ERROR)
    (h3 : t.tool_call_count + 1 < t.max_tool_calls)
    (h4 : t.consecutive_errors + 2 < 5)
    (hana : analyze_tool_success c = false)
    (hchk : check_automation_success c = false) :
    runAgent t (c :: rest) = runAgent
      { t with tool_call_count := t.tool_call_count + 1,
               consecutive_errors := t.consecutive_errors + 2 } rest := by
  have hpol : policy_node t = t := by
    simp [policy_node, h2,
      Nat.not_le.mpr (by omega : t.tool_call_count < t.max_tool_calls)]
  have he := evaluate_fail_shape t c h2 hana hchk
  have hroute : route_after_evaluation (evaluate_node t c) = .cont := by
    rw [he]
    simp [route_after_evaluation, h1, h2, Nat.not_le.mpr h3,
      Nat.not_le.mpr h4]
  conv_lhs => unfold runAgent
  rw [hpol]
  simp only [hroute]
  rw [he]

theorem runAgent_fail_last (t : AgentState) (c : String)
    (h1 : t.success = false) (h2 : t.current_step ≠ .ERROR)
    (h3 : t.tool_call_count + 1 < t.max_tool_calls)
    (h4 : 5 ≤ t.consecutive_errors + 2)
    (hana : analyze_tool_success c = false)
    (hchk : check_automation_success c = false) :
    (runAgent t [c]).1 = .error
    ∧ (runAgent t [c]).2.consecutive_errors = t.consecutive_errors + 2 := by
  have hpol : policy_node t = t := by
    simp [policy_node, h2,
      Nat.not_le.mpr (by omega : t.tool_call_count < t.max_tool_calls)]
  have he := evaluate_fail_shape t c h2 hana hchk
  have hroute : route_after_evaluation (evaluate_node t c) = .error := by
    rw [he]
    simp [route_after_evaluation, h1, h2, Nat.not_le.mpr h3, h4]
  have hrun : runAgent t [c] = (.error, error_node (evaluate_node t c)) := by
    conv_lhs => unfold runAgent
    rw [hpol]
    simp only [hroute]
  constructor
  · rw [hrun]
  · rw [hrun, he]
    rfl

/-- C1 counterexample: a single failing outcome increases
`consecutive_errors` by 2, not by 1 (it is incremented both inside
`add_tool_call_record` and in `evaluate_node`'s failure branch), and a run
fed only failing outcomes terminates at the error route after 3 outcomes
with the count at 6 — exceeding 5. -/
theorem consecutive_failures_counterexample :
    analyze_tool_success "Action: click | Status: FAILED" = false
    ∧ exampleState.consecutive_errors = 0
    ∧ (evaluate_node exampleState
        "Action: click | Status: FAILED").consecutive_errors = 2
    ∧ (runAgent exampleState
        ["Action: click | Status: FAILED", "Action: click | Status: FAILED",
          "Action: click | Status: FAILED", "Action: click | Status: FAILED",
          "Action: click | Status: FAILED"]).1 = .error
    ∧ (runAgent exampleState
        ["Action: click | Status: FAILED", "Action: click | Status: FAILED",
          "Action: click | Status: FAILED", "Action: click | Status: FAILED",
          "Action: click | Status: FAILED"]).2.consecutive_errors = 6 := by
  decide

/-- C1 amended: with no adaptive capability configured, each failing
outcome (one classified as failure and carrying no global-success
evidence) increases `consecutive_errors` by exactly 2 — once when the
outcome is recorded and once in the evaluation failure branch; routing
still compares the count against the threshold 5, so a run with a zero
count and budget headroom reaches the terminal Error route after 3
consecutive failing outcomes with the count equal to 6 (never 5). -/
theorem consecutive_failures_double_counted :
    (∀ (s : AgentState) (c : String), s.current_step ≠ .ERROR →
      analyze_tool_success c = false → check_automation_success c = false →
      (evaluate_node s c).consecutive_errors = s.consecutive_errors + 2)
    ∧ (∀ s : AgentState, s.success = false → s.current_step ≠ .ERROR →
      s.tool_call_count < s.max_tool_calls → 5 ≤ s.consecutive_errors →
      route_after_evaluation s = .error)
    ∧ (∀ (s : AgentState) (c : String), s.success = false →
      s.current_step ≠ .ERROR → s.consecutive_errors = 0 →
      s.tool_call_count + 3 < s.max_tool_calls →
      analyze_tool_success c = false → check_automation_success c = false →
      (runAgent s [c, c, c]).1 = .error
      ∧ (runAgent s [c, c, c]).2.consecutive_errors = 6) := by
  refine ⟨?_, ?_, ?_⟩
  · intro s c hE hana hchk
    rw [evaluate_fail_shape s c hE hana hchk]
  · intro s h1 h2 h3 h4
    simp [route_after_evaluation, h1, h2, Nat.not_le.mpr h3, h4]
  · intro s c h1 h2 h0 hbud hana hchk
    rw [runAgent_fail_cont s c _ h1 h2 (by omega) (by omega) hana hchk]
    rw [runAgent_fail_cont
      { s with tool_call_count := s.tool_call_count + 1,
               consecutive_errors := s.consecutive_errors + 2 } c _ h1 h2
      (show s.tool_call_count + 1 + 1 < s.max_tool_calls by omega)
      (show s.consecutive_errors + 2 + 2 < 5 by omega) hana hchk]
    obtain ⟨ha, hb⟩ := runAgent_fail_last
      { s with tool_call_count := s.tool_call_count + 1 + 1,
               consecutive_errors := s.consecutive_errors + 2 + 2 } c
      h1 h2
      (show s.tool_call_count + 1 + 1 + 1 < s.max_tool_calls by omega)
      (show 5 ≤ s.consecutive_errors + 2 + 2 + 2 by omega) hana hchk
    exact ⟨ha, hb.trans (show s.consecutive_errors + 2 + 2 + 2 = 6 by omega)⟩

/-- C1 amended witness: the double increment and the 3-failure error run
at a concrete state and failing content. -/
theorem consecutive_failures_double_counted_witness :
    (evaluate_node exampleState
      "Action: type | Status: FAILED").consecutive_errors
        = exampleState.consecutive_errors + 2
    ∧ (runAgent exampleState ["Action: type | Status: FAILED",
        "Action: type | Status: FAILED",
        "Action: type | Status: FAILED"]).1 = .error :=
  ⟨consecutive_failures_double_counted.1 exampleState
      "Action: type | Status: FAILED" (by decide) (by decide) (by decide),
    (consecutive_failures_double_counted.2.2 exampleState
      "Action: type | Status: FAILED" (by decide) (by decide) (by decide)
      (by decide) (by decide) (by decide)).1⟩

theorem apply_transitions_preserved (s : AgentState) (cl : String) :
    (apply_transitions s cl).tool_call_count = s.tool_call_count
    ∧ (apply_transitions s cl).max_tool_calls = s.max_tool_calls
    ∧ (apply_transitions s cl).success = s.success
    ∧ (apply_transitions s cl).consecutive_errors = s.consecutive_errors := by
  unfold apply_transitions transWELCOME transEMAIL transPASSWORD transDETAILS
    transNAME transCAPTCHA transAUTH_WAIT transPOST_AUTH transVERIFY
  repeat' split
  all_goals exact ⟨rfl, rfl, rfl, rfl⟩

theorem apply_transitions_ne_error (s : AgentState) (cl : String)
    (h : s.current_step ≠ .ERROR) :
    (apply_transitions s cl).current_step ≠ .ERROR := by
  unfold apply_transitions transWELCOME transEMAIL transPASSWORD transDETAILS
    transNAME transCAPTCHA transAUTH_WAIT transPOST_AUTH transVERIFY
  repeat' split
  all_goals simp_all [set_current_step]

theorem evaluate_ok_fields (s : AgentState) (c : String)
    (hE : s.current_step ≠ .ERROR)
    (hana : analyze_tool_success c = true)
    (hchk : check_automation_success c = false) :
    (evaluate_node s c).tool_call_count = s.tool_call_count + 1
    ∧ (evaluate_node s c).max_tool_calls = s.max_tool_calls
    ∧ (evaluate_node s c).success = s.success
    ∧ (evaluate_node s c).consecutive_errors = 0
    ∧ (evaluate_node s c).current_step ≠ .ERROR := by
  rw [evaluate_ok_shape s c hE hana hchk]
  obtain ⟨p1, p2, p3, p4⟩ := apply_transitions_preserved
    { s with tool_call_count := s.tool_call_count + 1,
             consecutive_errors := 0 } (pyLower c)
  exact ⟨p1, p2, p3, p4,
    apply_transitions_ne_error _ (pyLower c) hE⟩

/-- C4: with a configured budget N, N successful-but-non-terminal outcomes
drive the run to the error terminal via the max-calls route with exactly N
recorded actions; and in general, whenever the recorded action count has
reached the budget, routing returns the budget-exhausted route regardless
of recent successes. -/
theorem budget_exhaustion_error :
    (∀ (s : AgentState) (contents : List String), s.success = false →
      s.current_step ≠ .ERROR → contents ≠ [] →
      s.tool_call_count + contents.length = s.max_tool_calls →
      (∀ c ∈ contents, analyze_tool_success c = true
        ∧ check_automation_success c = false) →
      (runAgent s contents).1 = .max_calls
      ∧ (runAgent s contents).2.tool_call_count = s.max_tool_calls
      ∧ (runAgent s contents).2.success = false)
    ∧ (∀ s : AgentState, s.success = false → s.current_step ≠ .ERROR →
      s.max_tool_calls ≤ s.tool_call_count →
      route_after_evaluation s = .max_calls) := by
  constructor
  · intro s contents
    induction contents generalizing s with
    | nil =>
      intro _ _ hne _ _
      exact absurd rfl hne
    | cons c rest ih =>
      intro h1 h2 _ hlen hgood
      have hc := hgood c (List.mem_cons_self c rest)
      have hlen1 : s.tool_call_count + (rest.length + 1) = s.max_tool_calls :=
        hlen
      have hbud : s.tool_call_count < s.max_tool_calls := by omega
      have hpol : policy_node s = s := by
        simp [policy_node, h2, Nat.not_le.mpr hbud]
      obtain ⟨p1, p2, p3, p4, p5⟩ := evaluate_ok_fields s c h2 hc.1 hc.2
      have hs2succ : (evaluate_node s c).success = false := p3.trans h1
      cases rest with
      | nil =>
        simp only [List.length_nil] at hlen1
        have hcount : (evaluate_node s c).max_tool_calls
            ≤ (evaluate_node s c).tool_call_count := by
          rw [p1, p2]
          omega
        have hroute : route_after_evaluation (evaluate_node s c)
            = .max_calls := by
          simp [route_after_evaluation, hs2succ, p5, hcount]
        have hrun : runAgent s [c]
            = (.max_calls, error_node (evaluate_node s c)) := by
          conv_lhs => unfold runAgent
          rw [hpol]
          simp only [hroute]
        rw [hrun]
        refine ⟨rfl, ?_, rfl⟩
        show (evaluate_node s c).tool_call_count = s.max_tool_calls
        rw [p1]
        omega
      | cons c2 rest2 =>
        have hlen2 : s.tool_call_count + (rest2.length + 1 + 1)
            = s.max_tool_calls := hlen
        have hcount : (evaluate_node s c).tool_call_count
            < (evaluate_node s c).max_tool_calls := by
          rw [p1, p2]
          omega
        have hroute : route_after_evaluation (evaluate_node s c) = .cont := by
          simp [route_after_evaluation, hs2succ, p5,
            Nat.not_le.mpr hcount, p4]
        have hrun : runAgent s (c :: c2 :: rest2)
            = runAgent (evaluate_node s c) (c2 :: rest2) := by
          conv_lhs => unfold runAgent
          rw [hpol]
          simp only [hroute]
        rw [hrun]
        obtain ⟨q1, q2, q3⟩ := ih (evaluate_node s c) hs2succ p5 (by simp)
          (by
            rw [p1, p2]
            have : (c2 :: rest2).length = rest2.length + 1 := rfl
            omega)
          (fun x hx => hgood x (List.mem_cons_of_mem c hx))
        rw [p2] at q2
        exact ⟨q1, q2, q3⟩
  · intro s h1 h2 h3
    simp [route_after_evaluation, h1, h2, h3]

/-- C4 witness: budget 2, two successful non-terminal outcomes: the run
ends at the error node through the max-calls route with 2 actions
recorded. -/
theorem budget_exhaustion_error_witness :
    (runAgent { exampleState with max_tool_calls := 2 }
      ["Clicked: Status SUCCESS", "Clicked: Status SUCCESS"]).1 = .max_calls
    ∧ (runAgent { exampleState with max_tool_calls := 2 }
      ["Clicked: Status SUCCESS", "Clicked: Status SUCCESS"]
      ).2.tool_call_count = 2 := by
  have h := budget_exhaustion_error.1 { exampleState with max_tool_calls := 2 }
    ["Clicked: Status SUCCESS", "Clicked: Status SUCCESS"] (by decide)
    (by decide) (by decide) (by decide) (by decide)
  exact ⟨h.1, h.2.1⟩

theorem apply_transitions_milestone (s : AgentState) (cl : String) :
    (apply_transitions s cl).current_step = s.current_step
    ∨ (apply_transitions s cl).progress_percentage
        = enter_progress (apply_transitions s cl).current_step := by
  unfold apply_transitions transWELCOME transEMAIL transPASSWORD transDETAILS
    transNAME transCAPTCHA transAUTH_WAIT transPOST_AUTH transVERIFY
  repeat' split
  all_goals first
    | exact Or.inl rfl
    | exact Or.inr rfl

/-- C5 counterexample: completing the AuthWait step sets progress to 80,
not 85 — `evaluate_node` moves AUTH_WAIT to POST_AUTH with progress 80
(src/agent/graph.py:612). -/
theorem auth_wait_milestone_counterexample :
    (evaluate_node { exampleState with current_step := .AUTH_WAIT }
      "Action: wait_auth | Status: SUCCESS | Message: Wait authentication COMPLETED"
      ).current_step = .POST_AUTH
    ∧ (evaluate_node { exampleState with current_step := .AUTH_WAIT }
      "Action: wait_auth | Status: SUCCESS | Message: Wait authentication COMPLETED"
      ).progress_percentage = 80
    ∧ (80 : Nat) ≠ 85 := by
  decide

/-- C5 amended: on every step transition of `evaluate_node` the new
progress equals the fixed milestone of the step being entered, per the
table `enter_progress` (Email=15, Password=25, Details=35, Name=50,
Captcha=65, AuthWait=75, PostAuth=80, Verify=90, Cleanup=100): completing
Email sets 25 (entering Password), but completing AuthWait sets 80, not
85. -/
theorem forward_transition_milestones (s : AgentState) (c : String)
    (h : (evaluate_node s c).current_step ≠ s.current_step) :
    (evaluate_node s c).progress_percentage
      = enter_progress (evaluate_node s c).current_step := by
  by_cases hE : s.current_step = .ERROR
  · rw [evaluate_error_id s c hE] at h
    exact absurd rfl h
  by_cases hchk : check_automation_success c = true
  · rw [evaluate_check_shape s c hE hchk] at h
    exact absurd ((add_record_fields s (analyze_tool_success c)).1) h
  have hchk0 : check_automation_success c = false :=
    Bool.eq_false_iff.mpr hchk
  by_cases hana : analyze_tool_success c = true
  · rw [evaluate_ok_shape s c hE hana hchk0] at h ⊢
    rcases apply_transitions_milestone
      { s with tool_call_count := s.tool_call_count + 1,
               consecutive_errors := 0 } (pyLower c) with h1 | h1
    · exact absurd h1 h
    · exact h1
  · have hana0 : analyze_tool_success c = false :=
      Bool.eq_false_iff.mpr hana
    rw [evaluate_fail_shape s c hE hana0 hchk0] at h
    exact absurd rfl h

/-- C5 amended witness: the EMAIL to PASSWORD transition lands exactly on
the Password milestone (25). -/
theorem forward_transition_milestones_witness :
    (evaluate_node
      { exampleState with current_step := .EMAIL, email_typed := true }
      "Clicked next button | Status: SUCCESS").progress_percentage
    = enter_progress (evaluate_node
      { exampleState with current_step := .EMAIL, email_typed := true }
      "Clicked next button | Status: SUCCESS").current_step :=
  forward_transition_milestones
    { exampleState with current_step := .EMAIL, email_typed := true }
    "Clicked next button | Status: SUCCESS" (by decide)

theorem add_record_flags (s : AgentState) (b : Bool) :
    (add_tool_call_record s b).email_typed = s.email_typed
    ∧ (add_tool_call_record s b).password_typed = s.password_typed
    ∧ details_flags (add_tool_call_record s b) = details_flags s
    ∧ name_flags (add_tool_call_record s b) = name_flags s
    ∧ captcha_flags (add_tool_call_record s b) = captcha_flags s := by
  unfold add_tool_call_record
  split <;> exact ⟨rfl, rfl, rfl, rfl, rfl⟩

theorem apply_transitions_flags (s : AgentState) (cl : String) :
    (s.current_step ≠ .EMAIL →
      (apply_transitions s cl).email_typed = s.email_typed)
    ∧ (s.current_step ≠ .PASSWORD →
      (apply_transitions s cl).password_typed = s.password_typed)
    ∧ (s.current_step ≠ .DETAILS →
      details_flags (apply_transitions s cl) = details_flags s)
    ∧ (s.current_step ≠ .NAME →
      name_flags (apply_transitions s cl) = name_flags s)
    ∧ (s.current_step ≠ .CAPTCHA →
      captcha_flags (apply_transitions s cl) = captcha_flags s) := by
  cases hstep : s.current_step with
  | WELCOME =>
    simp only [apply_transitions, hstep]
    rcases transWELCOME_spec s cl with h | h <;>
      rw [h] <;>
      exact ⟨fun _ => rfl, fun _ => rfl, fun _ => rfl, fun _ => rfl,
        fun _ => rfl⟩
  | EMAIL =>
    simp only [apply_transitions, hstep]
    rcases transEMAIL_spec s cl with h | ⟨h, _, _⟩ | h <;>
      rw [h] <;>
      exact ⟨fun hc => absurd rfl hc, fun _ => rfl, fun _ => rfl,
        fun _ => rfl, fun _ => rfl⟩
  | PASSWORD =>
    simp only [apply_transitions, hstep]
    rcases transPASSWORD_spec s cl with h | ⟨h, _, _⟩ | h <;>
      rw [h] <;>
      exact ⟨fun _ => rfl, fun hc => absurd rfl hc, fun _ => rfl,
        fun _ => rfl, fun _ => rfl⟩
  | DETAILS =>
    simp only [apply_transitions, hstep]
    rcases transDETAILS_spec s cl with h | h | h | h | h | h | h <;>
      rw [h] <;>
      exact ⟨fun _ => rfl, fun _ => rfl, fun hc => absurd rfl hc,
        fun _ => rfl, fun _ => rfl⟩
  | NAME =>
    simp only [apply_transitions, hstep]
    rcases transNAME_spec s cl with h | h | h | h | h | h <;>
      rw [h] <;>
      exact ⟨fun _ => rfl, fun _ => rfl, fun _ => rfl,
        fun hc => absurd rfl hc, fun _ => rfl⟩
  | CAPTCHA =>
    simp only [apply_transitions, hstep]
    rcases transCAPTCHA_spec s cl with h | h | h <;>
      rw [h] <;>
      exact ⟨fun _ => rfl, fun _ => rfl, fun _ => rfl, fun _ => rfl,
        fun hc => absurd rfl hc⟩
  | AUTH_WAIT =>
    simp only [apply_transitions, hstep]
    rcases transAUTH_WAIT_spec s cl with h | h <;>
      rw [h] <;>
      exact ⟨fun _ => rfl, fun _ => rfl, fun _ => rfl, fun _ => rfl,
        fun _ => rfl⟩
  | POST_AUTH =>
    simp only [apply_transitions, hstep]
    rcases transPOST_AUTH_spec s cl with h | h <;>
      rw [h] <;>
      exact ⟨fun _ => rfl, fun _ => rfl, fun _ => rfl, fun _ => rfl,
        fun _ => rfl⟩
  | VERIFY =>
    simp only [apply_transitions, hstep]
    rcases transVERIFY_spec s cl with h | h <;>
      rw [h] <;>
      exact ⟨fun _ => rfl, fun _ => rfl, fun _ => rfl, fun _ => rfl,
        fun _ => rfl⟩
  | INIT =>
    simp [apply_transitions, hstep]
  | CLEANUP =>
    simp [apply_transitions, hstep]
  | ERROR =>
    simp [apply_transitions, hstep]

/-- C3 counterexample: within the Details step the gate order is not
enforced — a "select day" outcome sets `details_day_value_selected` (the
2nd flag of the Details checklist) while `details_day_selected` (the 1st)
is still false. -/
theorem details_gate_order_counterexample :
    ({ exampleState with current_step := .DETAILS }
      : AgentState).details_day_selected = false
    ∧ (evaluate_node { exampleState with current_step := .DETAILS }
        "Action: click | Status: SUCCESS | Message: Clicked: Select day 15"
        ).details_day_value_selected = true
    ∧ (evaluate_node { exampleState with current_step := .DETAILS }
        "Action: click | Status: SUCCESS | Message: Clicked: Select day 15"
        ).details_day_selected = false := by
  decide

/-- C3 amended: flags are step-scoped — `evaluate_node` never changes a
flag belonging to a step other than the current one, so no later step's
flag is set while an earlier step is current; but within a step the
declared checklist order is not enforced (e.g. in Details a "select day"
outcome sets the day-value flag even though the day-dropdown flag is still
false). -/
theorem step_flags_step_scoped (s : AgentState) (c : String) :
    (s.current_step ≠ .EMAIL →
      (evaluate_node s c).email_typed = s.email_typed)
    ∧ (s.current_step ≠ .PASSWORD →
      (evaluate_node s c).password_typed = s.password_typed)
    ∧ (s.current_step ≠ .DETAILS →
      details_flags (evaluate_node s c) = details_flags s)
    ∧ (s.current_step ≠ .NAME →
      name_flags (evaluate_node s c) = name_flags s)
    ∧ (s.current_step ≠ .CAPTCHA →
      captcha_flags (evaluate_node s c) = captcha_flags s) := by
  by_cases hE : s.current_step = .ERROR
  · rw [evaluate_error_id s c hE]
    exact ⟨fun _ => rfl, fun _ => rfl, fun _ => rfl, fun _ => rfl,
      fun _ => rfl⟩
  by_cases hchk : check_automation_success c = true
  · rw [evaluate_check_shape s c hE hchk]
    obtain ⟨a1, a2, a3, a4, a5⟩ := add_record_flags s (analyze_tool_success c)
    exact ⟨fun _ => a1, fun _ => a2, fun _ => a3, fun _ => a4, fun _ => a5⟩
  have hchk0 : check_automation_success c = false :=
    Bool.eq_false_iff.mpr hchk
  by_cases hana : analyze_tool_success c = true
  · rw [evaluate_ok_shape s c hE hana hchk0]
    obtain ⟨b1, b2, b3, b4, b5⟩ := apply_transitions_flags
      { s with tool_call_count := s.tool_call_count + 1,
               consecutive_errors := 0 } (pyLower c)
    exact ⟨fun hne => b1 hne, fun hne => b2 hne, fun hne => b3 hne,
      fun hne => b4 hne, fun hne => b5 hne⟩
  · have hana0 : analyze_tool_success c = false :=
      Bool.eq_false_iff.mpr hana
    rw [evaluate_fail_shape s c hE hana0 hchk0]
    exact ⟨fun _ => rfl, fun _ => rfl, fun _ => rfl, fun _ => rfl,
      fun _ => rfl⟩

/-- C3 amended witness: with the current step at WELCOME, an outcome
leaves the Details flags untouched. -/
theorem step_flags_step_scoped_witness :
    details_flags (evaluate_node exampleState "Clicked: Status SUCCESS")
      = details_flags exampleState :=
  (step_flags_step_scoped exampleState "Clicked: Status SUCCESS").2.2.1
    (by decide)


theorem apply_transitions_at_EMAIL (t : AgentState) (cl : String)
    (h : t.current_step = .EMAIL) :
    apply_transitions t cl = transEMAIL t cl := by
  unfold apply_transitions
  rw [h]

theorem apply_transitions_at_PASSWORD (t : AgentState) (cl : String)
    (h : t.current_step = .PASSWORD) :
    apply_transitions t cl = transPASSWORD t cl := by
  unfold apply_transitions
  rw [h]

theorem transEMAIL_exit (t : AgentState) (cl : String)
    (ht : t.current_step = .EMAIL)
    (hne : (transEMAIL t cl).current_step ≠ .EMAIL) :
    (transEMAIL t cl).current_step = .PASSWORD ∧ t.email_typed = true
    ∧ pyIn "next" cl = true
    ∧ (transEMAIL t cl).progress_percentage = 25 := by
  rcases transEMAIL_spec t cl with h | ⟨h, he, hn⟩ | h
  · rw [h] at hne
    exact absurd ht hne
  · rw [h] at hne ⊢
    exact ⟨rfl, he, hn, rfl⟩
  · rw [h] at hne
    exact absurd ht hne

theorem transPASSWORD_exit (t : AgentState) (cl : String)
    (ht : t.current_step = .PASSWORD)
    (hne : (transPASSWORD t cl).current_step ≠ .PASSWORD) :
    (transPASSWORD t cl).current_step = .DETAILS ∧ t.password_typed = true
    ∧ pyIn "next" cl = true
    ∧ (transPASSWORD t cl).progress_percentage = 35 := by
  rcases transPASSWORD_spec t cl with h | ⟨h, he, hn⟩ | h
  · rw [h] at hne
    exact absurd ht hne
  · rw [h] at hne ⊢
    exact ⟨rfl, he, hn, rfl⟩
  · rw [h] at hne
    exact absurd ht hne

/-- C6: in the Email and Password steps, typing and advancing are two
distinct cycles.  The planner emits a type action while the typed flag is
false and the explicit next_button action only once it is true; a
successful type outcome ("typed" + field keywords) only sets the typed
flag and leaves the step unchanged in the same cycle; and the step leaves
EMAIL (resp. PASSWORD) only to PASSWORD (resp. DETAILS), and only on an
outcome with a "next" signal evaluated while the typed flag was already
true. -/
theorem email_password_two_phase (s : AgentState) (c : String) :
    (s.current_step = .EMAIL → s.email_typed = false →
      create_working_tool_call s =
        { name := "mobile_ui", action := "type",
          locator := some "android.widget.EditText", strategy := some "class",
          text := some s.account_data.username, description := "Type email" })
    ∧ (s.current_step = .EMAIL → s.email_typed = true →
      create_working_tool_call s =
        { name := "mobile_ui", action := "next_button",
          description := "Next after email" })
    ∧ (s.current_step = .EMAIL → analyze_tool_success c = true →
      check_automation_success c = false →
      pyIn "typed" (pyLower c) = true → pyIn "email" (pyLower c) = true →
      (evaluate_node s c).current_step = .EMAIL
      ∧ (evaluate_node s c).email_typed = true)
    ∧ (s.current_step = .EMAIL → (evaluate_node s c).current_step ≠ .EMAIL →
      (evaluate_node s c).current_step = .PASSWORD
      ∧ s.email_typed = true ∧ pyIn "next" (pyLower c) = true
      ∧ (evaluate_node s c).progress_percentage = 25)
    ∧ (s.current_step = .PASSWORD → s.password_typed = false →
      create_working_tool_call s =
        { name := "mobile_ui", action := "type",
          locator := some "android.widget.EditText", strategy := some "class",
          text := some s.account_data.password,
          description := "Type password" })
    ∧ (s.current_step = .PASSWORD → s.password_typed = true →
      create_working_tool_call s =
        { name := "mobile_ui", action := "next_button",
          description := "Next after password" })
    ∧ (s.current_step = .PASSWORD → analyze_tool_success c = true →
      check_automation_success c = false →
      pyIn "typed" (pyLower c) = true → pyIn "password" (pyLower c) = true →
      (evaluate_node s c).current_step = .PASSWORD
      ∧ (evaluate_node s c).password_typed = true)
    ∧ (s.current_step = .PASSWORD →
      (evaluate_node s c).current_step ≠ .PASSWORD →
      (evaluate_node s c).current_step = .DETAILS
      ∧ s.password_typed = true ∧ pyIn "next" (pyLower c) = true
      ∧ (evaluate_node s c).progress_percentage = 35) := by
  refine ⟨?_, ?_, ?_, ?_, ?_, ?_, ?_, ?_⟩
  · intro h1 h2
    simp [create_working_tool_call, h1, h2]
  · intro h1 h2
    simp [create_working_tool_call, h1, h2]
  · intro h1 hana hchk htyped hfield
    have hE : s.current_step ≠ .ERROR := by
      rw [h1]
      decide
    rw [evaluate_ok_shape s c hE hana hchk]
    simp [apply_transitions, transEMAIL, h1, htyped, hfield]
  · intro h1 hne
    have hE : s.current_step ≠ .ERROR := by
      rw [h1]
      decide
    by_cases hchk : check_automation_success c = true
    · rw [evaluate_check_shape s c hE hchk] at hne
      exact absurd ((add_record_fields s (analyze_tool_success c)).1.trans h1)
        hne
    have hchk0 : check_automation_success c = false :=
      Bool.eq_false_iff.mpr hchk
    by_cases hana : analyze_tool_success c = true
    · rw [evaluate_ok_shape s c hE hana hchk0] at hne ⊢
      set s1 : AgentState :=
        { s with tool_call_count := s.tool_call_count + 1,
                 consecutive_errors := 0 } with hs1
      have hstep1 : s1.current_step = .EMAIL := h1
      rw [apply_transitions_at_EMAIL s1 (pyLower c) hstep1] at hne ⊢
      exact transEMAIL_exit s1 (pyLower c) hstep1 hne
    · have hana0 : analyze_tool_success c = false :=
        Bool.eq_false_iff.mpr hana
      rw [evaluate_fail_shape s c hE hana0 hchk0] at hne
      exact absurd h1 hne
  · intro h1 h2
    simp [create_working_tool_call, h1, h2]
  · intro h1 h2
    simp [create_working_tool_call, h1, h2]
  · intro h1 hana hchk htyped hfield
    have hE : s.current_step ≠ .ERROR := by
      rw [h1]
      decide
    rw [evaluate_ok_shape s c hE hana hchk]
    simp [apply_transitions, transPASSWORD, h1, htyped, hfield]
  · intro h1 hne
    have hE : s.current_step ≠ .ERROR := by
      rw [h1]
      decide
    by_cases hchk : check_automation_success c = true
    · rw [evaluate_check_shape s c hE hchk] at hne
      exact absurd ((add_record_fields s (analyze_tool_success c)).1.trans h1)
        hne
    have hchk0 : check_automation_success c = false :=
      Bool.eq_false_iff.mpr hchk
    by_cases hana : analyze_tool_success c = true
    · rw [evaluate_ok_shape s c hE hana hchk0] at hne ⊢
      set s1 : AgentState :=
        { s with tool_call_count := s.tool_call_count + 1,
                 consecutive_errors := 0 } with hs1
      have hstep1 : s1.current_step = .PASSWORD := h1
      rw [apply_transitions_at_PASSWORD s1 (pyLower c) hstep1] at hne ⊢
      exact transPASSWORD_exit s1 (pyLower c) hstep1 hne
    · have hana0 : analyze_tool_success c = false :=
        Bool.eq_false_iff.mpr hana
      rw [evaluate_fail_shape s c hE hana0 hchk0] at hne
      exact absurd h1 hne

/-- C6 witness: in the Email step with the flag false the planner emits
the type action, and a successful typed-email outcome sets the flag
without leaving the EMAIL step. -/
theorem email_password_two_phase_witness :
    create_working_tool_call { exampleState with current_step := .EMAIL }
      = { name := "mobile_ui", action := "type",
          locator := some "android.widget.EditText", strategy := some "class",
          text := some exampleAccount.username, description := "Type email" }
    ∧ (evaluate_node { exampleState with current_step := .EMAIL }
        "Typed: Type email = fix123456 | Status: SUCCESS"
        ).current_step = .EMAIL
    ∧ (evaluate_node { exampleState with current_step := .EMAIL }
        "Typed: Type email = fix123456 | Status: SUCCESS"
        ).email_typed = true := by
  have h := email_password_two_phase
    { exampleState with current_step := .EMAIL }
    "Typed: Type email = fix123456 | Status: SUCCESS"
  exact ⟨h.1 rfl rfl,
    (h.2.2.1 rfl (by decide) (by decide) (by decide) (by decide)).1,
    (h.2.2.1 rfl (by decide) (by decide) (by decide) (by decide)).2⟩

theorem enter_progress_le (st : WorkflowStep) : enter_progress st ≤ 100 := by
  cases st <;> simp [enter_progress]

theorem apply_transitions_progress (t : AgentState) (cl : String)
    (hinv : t.progress_percentage ≤ enter_progress t.current_step) :
    t.progress_percentage ≤ (apply_transitions t cl).progress_percentage
    ∧ (apply_transitions t cl).progress_percentage
        ≤ enter_progress (apply_transitions t cl).current_step := by
  cases hstep : t.current_step with
  | WELCOME =>
    rw [hstep] at hinv
    simp only [enter_progress] at hinv
    simp only [apply_transitions, hstep]
    rcases transWELCOME_spec t cl with h | h <;>
      rw [h] <;>
      simp [set_current_step, enter_progress, hstep] <;>
      omega
  | EMAIL =>
    rw [hstep] at hinv
    simp only [enter_progress] at hinv
    simp only [apply_transitions, hstep]
    rcases transEMAIL_spec t cl with h | ⟨h, _, _⟩ | h <;>
      rw [h] <;>
      simp [set_current_step, enter_progress, hstep] <;>
      omega
  | PASSWORD =>
    rw [hstep] at hinv
    simp only [enter_progress] at hinv
    simp only [apply_transitions, hstep]
    rcases transPASSWORD_spec t cl with h | ⟨h, _, _⟩ | h <;>
      rw [h] <;>
      simp [set_current_step, enter_progress, hstep] <;>
      omega
  | DETAILS =>
    rw [hstep] at hinv
    simp only [enter_progress] at hinv
    simp only [apply_transitions, hstep]
    rcases transDETAILS_spec t cl with h | h | h | h | h | h | h <;>
      rw [h] <;>
      simp [set_current_step, enter_progress, hstep] <;>
      omega
  | NAME =>
    rw [hstep] at hinv
    simp only [enter_progress] at hinv
    simp only [apply_transitions, hstep]
    rcases transNAME_spec t cl with h | h | h | h | h | h <;>
      rw [h] <;>
      simp [set_current_step, enter_progress, hstep] <;>
      omega
  | CAPTCHA =>
    rw [hstep] at hinv
    simp only [enter_progress] at hinv
    simp only [apply_transitions, hstep]
    rcases transCAPTCHA_spec t cl with h | h | h <;>
      rw [h] <;>
      simp [set_current_step, enter_progress, hstep] <;>
      omega
  | AUTH_WAIT =>
    rw [hstep] at hinv
    simp only [enter_progress] at hinv
    simp only [apply_transitions, hstep]
    rcases transAUTH_WAIT_spec t cl with h | h <;>
      rw [h] <;>
      simp [set_current_step, enter_progress, hstep] <;>
      omega
  | POST_AUTH =>
    rw [hstep] at hinv
    simp only [enter_progress] at hinv
    simp only [apply_transitions, hstep]
    rcases transPOST_AUTH_spec t cl with h | h <;>
      rw [h] <;>
      simp [set_current_step, enter_progress, hstep] <;>
      omega
  | VERIFY =>
    rw [hstep] at hinv
    simp only [enter_progress] at hinv
    simp only [apply_transitions, hstep]
    rcases transVERIFY_spec t cl with h | h <;>
      rw [h] <;>
      simp [set_current_step, enter_progress, hstep] <;>
      omega
  | INIT =>
    rw [hstep] at hinv
    simp only [enter_progress] at hinv
    simp only [apply_transitions, hstep]
    simp [enter_progress, hstep]
    omega
  | CLEANUP =>
    rw [hstep] at hinv
    simp only [enter_progress] at hinv
    simp only [apply_transitions, hstep]
    simp [enter_progress, hstep]
    omega
  | ERROR =>
    rw [hstep] at hinv
    simp only [enter_progress] at hinv
    simp only [apply_transitions, hstep]
    simp [enter_progress, hstep]
    omega

theorem evaluate_progress (s : AgentState) (c : String)
    (hinv : s.progress_percentage ≤ enter_progress s.current_step) :
    s.progress_percentage ≤ (evaluate_node s c).progress_percentage
    ∧ ((evaluate_node s c).success = false →
        (evaluate_node s c).progress_percentage
          ≤ enter_progress (evaluate_node s c).current_step) := by
  by_cases hE : s.current_step = .ERROR
  · rw [evaluate_error_id s c hE]
    exact ⟨le_refl _, fun _ => hinv⟩
  by_cases hchk : check_automation_success c = true
  · rw [evaluate_check_shape s c hE hchk]
    constructor
    · have h100 := enter_progress_le s.current_step
      show s.progress_percentage ≤ 100
      omega
    · intro hsucc
      simp [set_success] at hsucc
  have hchk0 : check_automation_success c = false :=
    Bool.eq_false_iff.mpr hchk
  by_cases hana : analyze_tool_success c = true
  · rw [evaluate_ok_shape s c hE hana hchk0]
    set s1 : AgentState :=
      { s with tool_call_count := s.tool_call_count + 1,
               consecutive_errors := 0 } with hs1
    have hinv1 : s1.progress_percentage ≤ enter_progress s1.current_step :=
      hinv
    obtain ⟨m1, m2⟩ := apply_transitions_progress s1 (pyLower c) hinv1
    exact ⟨m1, fun _ => m2⟩
  · have hana0 : analyze_tool_success c = false :=
      Bool.eq_false_iff.mpr hana
    rw [evaluate_fail_shape s c hE hana0 hchk0]
    exact ⟨le_refl _, fun _ => hinv⟩

theorem route_cont_success (s : AgentState)
    (h : route_after_evaluation s = .cont) : s.success = false := by
  by_cases hs : s.success = true
  · simp [route_after_evaluation, hs] at h
  · exact Bool.eq_false_iff.mpr hs

theorem policy_node_fields (s : AgentState) :
    (policy_node s).progress_percentage = s.progress_percentage
    ∧ (policy_node s).success = s.success := by
  unfold policy_node
  repeat' split
  all_goals exact ⟨rfl, rfl⟩

theorem policy_node_inv (s : AgentState)
    (hinv : s.progress_percentage ≤ enter_progress s.current_step) :
    (policy_node s).progress_percentage
      ≤ enter_progress (policy_node s).current_step := by
  have h100 := enter_progress_le s.current_step
  unfold policy_node
  repeat' split
  · exact hinv
  · show s.progress_percentage ≤ enter_progress .ERROR
    simp only [enter_progress]
    omega
  · exact hinv

theorem runTrace_head (s : AgentState) (l : List String) :
    ∃ t, runTrace s l = s :: t := by
  cases l with
  | nil => exact ⟨[], rfl⟩
  | cons c rest =>
    unfold runTrace
    dsimp only
    split
    all_goals exact ⟨_, rfl⟩

/-- C8: `progress_percentage` is monotonically non-decreasing along every
state of a run: every trace of the policy/evaluate/route loop, started
from a state whose progress is within its step's milestone (as all
initialized states are), has non-decreasing progress at every adjacent
pair, through to the terminal cleanup/error node. -/
theorem progress_monotone (s : AgentState) (contents : List String)
    (hsucc : s.success = false)
    (hinv : s.progress_percentage ≤ enter_progress s.current_step) :
    List.Chain' (fun a b => a.progress_percentage ≤ b.progress_percentage)
      (runTrace s contents) := by
  induction contents generalizing s with
  | nil =>
    unfold runTrace
    exact List.chain'_singleton s
  | cons c rest ih =>
    have hpf := policy_node_fields s
    have hpinv := policy_node_inv s hinv
    obtain ⟨m1, m2⟩ := evaluate_progress (policy_node s) c hpinv
    have hle : s.progress_percentage
        ≤ (evaluate_node (policy_node s) c).progress_percentage := by
      rw [hpf.1] at m1
      exact m1
    unfold runTrace
    dsimp only
    split
    · next hroute =>
      have h2succ : (evaluate_node (policy_node s) c).success = false :=
        route_cont_success _ hroute
      have h2inv := m2 h2succ
      obtain ⟨t, ht⟩ := runTrace_head (evaluate_node (policy_node s) c) rest
      have hch := ih (evaluate_node (policy_node s) c) h2succ h2inv
      rw [ht] at hch
      rw [ht]
      exact List.chain'_cons.mpr ⟨hle, hch⟩
    · exact List.chain'_cons.mpr ⟨hle,
        List.chain'_cons.mpr ⟨le_refl _, List.chain'_singleton _⟩⟩
    · exact List.chain'_cons.mpr ⟨hle,
        List.chain'_cons.mpr ⟨le_refl _, List.chain'_singleton _⟩⟩
    · exact List.chain'_cons.mpr ⟨hle,
        List.chain'_cons.mpr ⟨le_refl _, List.chain'_singleton _⟩⟩

/-- C8 witness: a concrete one-outcome trace from the initialized state
has non-decreasing progress. -/
theorem progress_monotone_witness :
    List.Chain' (fun a b => a.progress_percentage ≤ b.progress_percentage)
      (runTrace exampleState ["Clicked: CREATE | Status: SUCCESS"]) :=
  progress_monotone exampleState ["Clicked: CREATE | Status: SUCCESS"] rfl
    (by decide)

theorem strptime_ymd_rejects_short_year :
    strptime_ymd "999-12-31" = none := by
  decide

theorem strptime_ymd_accepts_space_day :
    strptime_ymd "1995-01- 5" = some (1995, 1, 5) := by
  decide
